import Mathlib

/-!
Verification development for the CAE windowing / inter-process command-posting
subsystem (src/gui/window.py).

The Python code is shallowly embedded:

* Python strings are modelled as lists of Unicode code points (`List Nat`),
  so that Python's `str.lower()` becomes a pointwise map and regex matching
  becomes an executable function on code-point lists.
* The window registry (the X11 `_NET_CLIENT_LIST` walk on Linux, the
  `EnumWindows` callback on Windows) is modelled as a list of
  (window id, window title) pairs in enumeration order, all already visible.
* Real time in the `wid_wrapper` polling loop is modelled in deciseconds:
  each `time.sleep(0.1)` advances the clock by one tick, so the
  `time.perf_counter() - start > 5` test becomes `tick > 50`.
* Key events, log records and warnings are reified as lists of constructors,
  so that "emits exactly one warning" is a statement about a list.
* X11 keysym-to-keycode resolution (display dependent) is an uninterpreted
  parameter `kc`.
-/

namespace Cae

/-- Code points of a Lean string literal; used to write down concrete Python
strings in examples and counterexamples. -/
def cs (s : String) : List Nat :=
  s.toList.map Char.toNat

/-! ## Python `str.lower` (ASCII fragment, which is all the code relies on) -/

/-- Lowercase one code point, as Python `str.lower()` acts on ASCII. -/
def lowerNat (n : Nat) : Nat :=
  if 65 ≤ n ∧ n ≤ 90 then n + 32 else n

/-- Lowercase a whole string (list of code points). -/
def lowerStr (w : List Nat) : List Nat :=
  w.map lowerNat

theorem lowerNat_idem (n : Nat) : lowerNat (lowerNat n) = lowerNat n := by
  by_cases h : 65 ≤ n ∧ n ≤ 90
  · have h2 : ¬ (65 ≤ n + 32 ∧ n + 32 ≤ 90) := by omega
    simp only [lowerNat, if_pos h, if_neg h2]
  · simp [lowerNat, h]

theorem lowerStr_idem (w : List Nat) : lowerStr (lowerStr w) = lowerStr w := by
  unfold lowerStr
  rw [List.map_map]
  apply List.map_congr_left
  intro n _
  exact lowerNat_idem n

/-! ## The window-title regex

Both `get_wid` variants build the pattern
`regex = '(\S+ - )*' + title.lower() + '( - \S+)*'`
and test `re.fullmatch(regex, wname.lower())`.  A full match exists iff the
window name decomposes as zero or more blocks `p ++ " - "` (each `p` a
nonempty run of non-whitespace characters), then the literal title, then zero
or more blocks `" - " ++ s` (each `s` a nonempty run of non-whitespace).
The matchers below decide this by structural left-to-right scans. -/

/-- Python `\S`: not a whitespace character. -/
def nonWS (n : Nat) : Bool :=
  !(n == 32 || n == 9 || n == 10 || n == 11 || n == 12 || n == 13)

/-- Decide `( - \S+)*` against the whole remaining input, by a structural
left-to-right scan.  The flag is `true` at a block boundary (start of the
suffix part) and `false` inside a `\S+` run with at least one character
already consumed.  Code point 32 is a space and 45 is a dash, so
`32 :: 45 :: 32` is the literal `" - "` block separator. -/
def sufScan : Bool → List Nat → Bool
  | true, [] => true
  | true, 32 :: 45 :: 32 :: c :: rest => nonWS c && sufScan false rest
  | true, _ => false
  | false, [] => true
  | false, 32 :: 45 :: 32 :: c :: rest => nonWS c && sufScan false rest
  | false, c :: rest => nonWS c && sufScan false rest

/-- Decide `title( - \S+)*` at the current position: the title must be a
literal prefix and the remainder must be suffix blocks. -/
def midMatch (t w : List Nat) : Bool :=
  t.isPrefixOf w && sufScan true (w.drop t.length)

/-- Decide the full pattern `(\S+ - )*title( - \S+)*`, by a structural scan.
The flag is `true` at a prefix-block boundary (where the title itself may
also start) and `false` inside a prefix block's `\S+` run.  A run is closed
by the literal `" - "`, after which we are at a boundary again. -/
def reScan (t : List Nat) : Bool → List Nat → Bool
  | true, [] => midMatch t []
  | true, c :: rest => midMatch t (c :: rest) || (nonWS c && reScan t false rest)
  | false, [] => false
  | false, 32 :: 45 :: 32 :: rest => reScan t true rest
  | false, c :: rest => nonWS c && reScan t false rest

/-- `re.fullmatch` of the pattern both `get_wid` variants build.  Inside a
block the `\S+` run is forced to be maximal (if it stopped early the next
character would be non-whitespace, yet the block requires a space there), so
this deterministic scan decides exactly the regex language for titles
without regex metacharacters, which is the case for every title the program
uses. -/
def reFullmatch (t : List Nat) (w : List Nat) : Bool :=
  reScan t true w

/-- The test both `get_wid` variants apply to one window title:
lowercase both sides, then regex-fullmatch. -/
def wmatch (title wname : List Nat) : Bool :=
  reFullmatch (lowerStr title) (lowerStr wname)

/-! ## The two window locators (single enumeration pass)

`LinuxWindow.get_wid` walks `_NET_CLIENT_LIST` in order and `break`s at the
first match.  `WindowsWindow.get_wid` installs an `EnumWindows` callback that
overwrites `self.wid` at every match and always returns `True` (continue), so
after the enumeration `self.wid` holds the last match. -/

/-- One enumeration pass of `LinuxWindow.get_wid` over the registry. -/
def linux_get_wid (title : List Nat) : List (Nat × List Nat) → Option Nat
  | [] => none
  | (i, name) :: rest =>
      if wmatch title name then some i else linux_get_wid title rest

/-- The `EnumWindows` callback body of `WindowsWindow.get_wid`, folded over
the registry in enumeration order (`acc` plays the role of `self.wid`). -/
def windows_enum_step (title : List Nat) (acc : Option Nat)
    (win : Nat × List Nat) : Option Nat :=
  if wmatch title win.2 then some win.1 else acc

/-- One enumeration pass of `WindowsWindow.get_wid` over the registry. -/
def windows_get_wid (title : List Nat) (reg : List (Nat × List Nat)) :
    Option Nat :=
  reg.foldl (windows_enum_step title) none

/-! ## The per-OS keyboard mappings

`LinuxWindow.__init__` builds `self.keyboardMapping` as a dict literal of
punctuation and whitespace entries, then adds the `KEY_NAMES` named keys, the
digits and lowercase letters with shift flag 0, and the uppercase letters
with shift flag 1.  Keys are Python strings (single characters or key
names), modelled as code-point lists; a Linux value is an X keysym name
(code-point list) plus the shift flag. -/

/-- The single-character entries of the Linux `keyboardMapping` dict,
including the digit/letter loops, keyed by code point. -/
def linuxCharMap : Nat → Option (List Nat × Nat)
  | 9 => some (cs "Tab", 0)
  | 10 => some (cs "Return", 0)
  | 13 => some (cs "Return", 0)
  | 8 => some (cs "BackSpace", 0)
  | 32 => some (cs "space", 0)
  | 33 => some (cs "exclam", 1)
  | 35 => some (cs "numbersign", 1)
  | 37 => some (cs "percent", 1)
  | 36 => some (cs "dollar", 1)
  | 38 => some (cs "ampersand", 1)
  | 34 => some (cs "quotedbl", 1)
  | 39 => some (cs "apostrophe", 0)
  | 40 => some (cs "parenleft", 1)
  | 41 => some (cs "parenright", 1)
  | 42 => some (cs "asterisk", 1)
  | 61 => some (cs "equal", 0)
  | 43 => some (cs "plus", 1)
  | 44 => some (cs "comma", 0)
  | 45 => some (cs "minus", 0)
  | 46 => some (cs "period", 0)
  | 47 => some (cs "slash", 0)
  | 58 => some (cs "colon", 1)
  | 59 => some (cs "semicolon", 0)
  | 60 => some (cs "less", 0)
  | 62 => some (cs "greater", 1)
  | 63 => some (cs "question", 1)
  | 64 => some (cs "at", 1)
  | 91 => some (cs "bracketleft", 0)
  | 93 => some (cs "bracketright", 0)
  | 94 => some (cs "asciicircum", 1)
  | 95 => some (cs "underscore", 1)
  | 96 => some (cs "grave", 0)
  | 123 => some (cs "braceleft", 1)
  | 92 => some (cs "backslash", 0)
  | 124 => some (cs "bar", 1)
  | 125 => some (cs "braceright", 1)
  | 126 => some (cs "asciitilde", 1)
  | c =>
    if 48 ≤ c ∧ c ≤ 57 then some ([c], 0)
    else if 97 ≤ c ∧ c ≤ 122 then some ([c], 0)
    else if 65 ≤ c ∧ c ≤ 90 then some ([c], 1)
    else none

/-- The `KEY_NAMES` list of `LinuxWindow.__init__`, each mapped to itself
with shift flag 0. -/
def linuxKeyNames : List (List Nat) :=
  [cs "Shift_L", cs "Control_L", cs "Alt_L", cs "Pause", cs "Caps_Lock",
   cs "Escape", cs "Page_Up", cs "Page_Down", cs "End", cs "Home",
   cs "Left", cs "Up", cs "Right", cs "Down", cs "Print",
   cs "Insert", cs "Delete", cs "Help", cs "Super_L", cs "Super_R",
   cs "KP_0", cs "KP_1", cs "KP_2", cs "KP_3", cs "KP_4", cs "KP_5",
   cs "KP_6", cs "KP_7", cs "KP_8", cs "KP_9", cs "KP_Multiply",
   cs "KP_Add", cs "KP_Separator", cs "KP_Subtract", cs "KP_Decimal",
   cs "KP_Divide",
   cs "F1", cs "F2", cs "F3", cs "F4", cs "F5", cs "F6", cs "F7", cs "F8",
   cs "F9", cs "F10", cs "F11", cs "F12",
   cs "Num_Lock", cs "Scroll_Lock", cs "Shift_R", cs "Control_R",
   cs "Alt_R"]

/-- The full Linux `keyboardMapping`: single characters go through
`linuxCharMap`, multi-character keys are exactly the `KEY_NAMES` (none of
which is a single character, so the split is faithful to the Python dict). -/
def linuxMapping : List Nat → Option (List Nat × Nat)
  | [c] => linuxCharMap c
  | k => if k ∈ linuxKeyNames then some (k, 0) else none

/-- The single-character entries of the Windows `keyboardMapping` dict,
including the digit/letter loops, keyed by code point.  A Windows value is a
virtual-key code plus the shift flag.  Note: no entry for backspace (8) and
none for carriage return (13). -/
def winCharMap : Nat → Option (Nat × Nat)
  | 9 => some (9, 0)
  | 10 => some (13, 0)
  | 32 => some (32, 0)
  | 33 => some (49, 1)
  | 64 => some (50, 1)
  | 35 => some (51, 1)
  | 36 => some (52, 1)
  | 37 => some (53, 1)
  | 94 => some (54, 1)
  | 38 => some (55, 1)
  | 42 => some (56, 1)
  | 40 => some (57, 1)
  | 41 => some (48, 1)
  | 59 => some (0xBA, 0)
  | 58 => some (0xBA, 1)
  | 61 => some (0xBB, 0)
  | 43 => some (0xBB, 1)
  | 44 => some (0xBC, 0)
  | 60 => some (0xBC, 1)
  | 45 => some (0xBD, 0)
  | 95 => some (0xBD, 1)
  | 46 => some (0xBE, 0)
  | 62 => some (0xBE, 1)
  | 47 => some (0xBF, 0)
  | 63 => some (0xBF, 1)
  | 96 => some (0xC0, 0)
  | 126 => some (0xC0, 1)
  | 91 => some (0xDB, 0)
  | 123 => some (0xDB, 1)
  | 92 => some (0xDC, 0)
  | 124 => some (0xDC, 1)
  | 93 => some (0xDD, 0)
  | 125 => some (0xDD, 1)
  | 39 => some (0xDE, 0)
  | 34 => some (0xDE, 1)
  | c =>
    if 48 ≤ c ∧ c ≤ 57 then some (c, 0)
    else if 97 ≤ c ∧ c ≤ 122 then some (c - 32, 0)
    else if 65 ≤ c ∧ c ≤ 90 then some (c, 1)
    else none

/-- The full Windows `keyboardMapping`: single characters through
`winCharMap`, plus the five named virtual keys of the dict literal. -/
def windowsMapping : List Nat → Option (Nat × Nat)
  | [c] => winCharMap c
  | k =>
    if k = cs "VK_LWIN" then some (0x5B, 0)
    else if k = cs "VK_LEFT" then some (0x25, 0)
    else if k = cs "VK_UP" then some (0x26, 0)
    else if k = cs "VK_RIGHT" then some (0x27, 0)
    else if k = cs "VK_DOWN" then some (0x28, 0)
    else none

/-! ## The `post_wrapper` precondition and call sequence -/

/-- The fields of `Window` that `post_wrapper` reads: the child process
handle (`self.cgx_process`, modelled by its pid), the result of
`self.cgx_process.poll()` (`none` while the process is still running, an
exit status once it has exited), and the two window ids `post` uses. -/
structure PostState where
  cgx_process : Option Nat
  poll : Option Int
  wid1 : Option Nat
  wid2 : Option Nat
deriving DecidableEq, Repr

/-- The guard of `post_wrapper`: `w.cgx_process is not None and
w.cgx_process.poll() is None and w.wid2 is not None`. -/
def post_precond (st : PostState) : Bool :=
  st.cgx_process.isSome && st.poll.isNone && st.wid2.isSome

/-- The sequence of arguments `post_wrapper` passes to the wrapped OS
delivery method: nothing if the guard fails, otherwise the three calls
`method(w, chr 10)` (drop previously pressed keys), `method(w, cmd ++ chr
10)` (the command), `method(w, chr 32)` (flush the CGX buffer). -/
def post_wrapper_calls (st : PostState) (cmd : List Nat) : List (List Nat) :=
  if post_precond st then [[10], cmd ++ [10], [32]] else []

/-! ## The Linux and Windows `post` bodies (per-symbol send loops) -/

/-- A synthetic X11 key event as built by `LinuxWindow.post.event`:
press or release, target window, keycode (`detail`) and shift state. -/
inductive XKeyEvent where
  | press (window detail state : Nat)
  | release (window detail state : Nat)
deriving DecidableEq, Repr

/-- The `for symbol in cmd: sendkey(win, symbol)` loop of
`LinuxWindow.post`.  `kc` is the display's keysym-to-keycode resolution
(`string_to_keysym` then `keysym_to_keycode`), left uninterpreted.  Returns
the delivered events and the list of symbols warned about (one warning per
unsupported occurrence, in order). -/
def linuxSendLoop (kc : List Nat → Nat) (win : Nat) :
    List Nat → List XKeyEvent × List Nat
  | [] => ([], [])
  | c :: rest =>
    let r := linuxSendLoop kc win rest
    match linuxMapping [c] with
    | some (name, sh) =>
        (XKeyEvent.press win (kc name) sh ::
          XKeyEvent.release win (kc name) sh :: r.1, r.2)
    | none => (r.1, c :: r.2)

/-- A Windows user32 call as issued by `WindowsWindow.post`:
`keybd_event(code, 0, flag, 0)` with flag 0 = press and 2 = release, or
`SetForegroundWindow(wid)`. -/
inductive WinEvent where
  | keybd (code flag : Nat)
  | setForeground (wid : Nat)
deriving DecidableEq, Repr

/-- The `for symbol in cmd: sendkey(symbol)` loop of `WindowsWindow.post`:
a supported symbol with shift flag 1 is wrapped in Shift (0x10) press and
release, an unsupported symbol is warned about and skipped. -/
def winSendLoop : List Nat → List WinEvent × List Nat
  | [] => ([], [])
  | c :: rest =>
    let r := winSendLoop rest
    match windowsMapping [c] with
    | some (code, sh) =>
        ((if sh = 1 then [WinEvent.keybd 16 0] else []) ++
          [WinEvent.keybd code 0, WinEvent.keybd code 2] ++
          (if sh = 1 then [WinEvent.keybd 16 2] else []) ++ r.1, r.2)
    | none => (r.1, c :: r.2)

/-- Concatenate the (events, warnings) results of consecutive method
invocations. -/
def combineRuns {E : Type} (runs : List (List E × List Nat)) :
    List E × List Nat :=
  runs.foldr (fun r acc => (r.1 ++ acc.1, r.2 ++ acc.2)) ([], [])

/-- The full Linux `post` as callers see it: `post_wrapper` around the
`LinuxWindow.post` body.  The body targets the window resolved from
`self.wid2` (non-`None` whenever the body runs, by the wrapper's guard). -/
def linux_post (kc : List Nat → Nat) (st : PostState) (cmd : List Nat) :
    List XKeyEvent × List Nat :=
  combineRuns ((post_wrapper_calls st cmd).map
    (fun c => linuxSendLoop kc (st.wid2.getD 0) c))

/-- The full Windows `post` as callers see it: `post_wrapper` around the
`WindowsWindow.post` body, which brings the CGX window to the foreground,
runs the send loop, then unconditionally restores the CAE window. -/
def windows_post (st : PostState) (cmd : List Nat) :
    List WinEvent × List Nat :=
  combineRuns ((post_wrapper_calls st cmd).map
    (fun c =>
      let r := winSendLoop c
      (WinEvent.setForeground (st.wid2.getD 0) :: r.1 ++
        [WinEvent.setForeground (st.wid1.getD 0)], r.2)))

/-! ## `LinuxWindow.send_hotkey` -/

/-- An XTEST `fake_input` call issued by `send_hotkey`. -/
inductive HotkeyEvent where
  | press (code : Nat)
  | release (code : Nat)
deriving DecidableEq, Repr

/-- The first `for key in keys` loop of `send_hotkey`: scan for a key with
no mapping entry; on the first one, warn and abort. -/
def hotkeyCheck : List (List Nat) → Option (List Nat)
  | [] => none
  | k :: rest => if (linuxMapping k).isNone then some k else hotkeyCheck rest

/-- Keycode of a (supported) hotkey key. -/
def hotkeyCode (kc : List Nat → Nat) (k : List Nat) : Nat :=
  kc ((linuxMapping k).getD ([], 0)).1

/-- `LinuxWindow.send_hotkey`: if any key is unsupported, warn about the
first such key and inject nothing; otherwise press every key in order, then
release in reverse order. -/
def send_hotkey (kc : List Nat → Nat) (keys : List (List Nat)) :
    List HotkeyEvent × List (List Nat) :=
  match hotkeyCheck keys with
  | some k => ([], [k])
  | none =>
      (keys.map (fun k => HotkeyEvent.press (hotkeyCode kc k)) ++
        keys.reverse.map (fun k => HotkeyEvent.release (hotkeyCode kc k)), [])

/-! ## The `wid_wrapper` polling loop

Time is modelled in deciseconds: each `time.sleep(0.1)` advances the tick
index by one, so `time.perf_counter() - start > 5` holds exactly at ticks
beyond the 50th.  The remaining budget is carried explicitly (budget `b` at
tick `i` means `i + b = 51`), which makes the recursion structural.  The
registry may change between ticks, so the wrapped `get_wid` body is a
function of the tick index. -/

/-- A log record emitted by `wid_wrapper` or `log_window_list`. -/
inductive WidLog where
  | errCantGet
  | dumpWindowList
  | errNoComm
  | dbgWid (w : Nat)
deriving DecidableEq, Repr

/-- The `while wid is None` loop of `wid_wrapper`: sleep, call the wrapped
method, then test the deadline (note the test runs even when the method
just succeeded, so a hit on the timeout tick is still reported as a
failure, matching the source order of the checks). -/
def widLoop (method : Nat → Option Nat) : Nat → Nat → Option Nat × List WidLog
  | i, budget =>
    let wid := method i
    match budget with
    | 0 => (none, [WidLog.errCantGet, WidLog.dumpWindowList, WidLog.errNoComm])
    | b + 1 =>
      match wid with
      | some w => (some w, [WidLog.dbgWid w])
      | none => widLoop method (i + 1) b

/-- `wid_wrapper` entry: first method call at tick 1, deadline at tick 51. -/
def wid_find (method : Nat → Option Nat) : Option Nat × List WidLog :=
  widLoop method 1 50

/-! ## `align` -/

/-- A window move/resize as issued by `win.configure` (Linux) or
`MoveWindow` (Windows). -/
structure MoveOp where
  wid : Nat
  x : Nat
  y : Nat
  w : Nat
  h : Nat
deriving DecidableEq, Repr

/-- `LinuxWindow.align`: the CAE window and the keyword dialog
(`wid1`, `wid3`) go to the left third of the available geometry, the CGX
window and the web browser (`wid2`, `wid4`) to the right two thirds;
identifiers still `None` are skipped.  `W`, `H` are the available screen
width and height; `math.floor` and `math.ceil` on nonnegative integer
thirds become `W / 3`, `(W + 2) / 3` and `2 * W / 3`. -/
def linux_align (wid1 wid3 wid2 wid4 : Option Nat) (W H : Nat) :
    List MoveOp :=
  (([wid1, wid3].filterMap id).map (fun i => MoveOp.mk i 0 0 (W / 3) H)) ++
  (([wid2, wid4].filterMap id).map
    (fun i => MoveOp.mk i ((W + 2) / 3) 0 (2 * W / 3) H))

/-- `WindowsWindow.align`: identical geometry and skip rule, issued through
`MoveWindow` after `ShowWindow(wid, 9)`. -/
def windows_align (wid1 wid3 wid2 wid4 : Option Nat) (W H : Nat) :
    List MoveOp :=
  (([wid1, wid3].filterMap id).map (fun i => MoveOp.mk i 0 0 (W / 3) H)) ++
  (([wid2, wid4].filterMap id).map
    (fun i => MoveOp.mk i ((W + 2) / 3) 0 (2 * W / 3) H))

/-! ## `Window.run_cgx` -/

/-- The session state `run_cgx` touches. -/
structure CgxSession where
  cgx_process : Option Nat
  wid2 : Option Nat
  mode : Option (List Nat)
  stdout_readers : List Nat
deriving DecidableEq, Repr

/-- A log record emitted directly by `run_cgx`. -/
inductive RunLog where
  | errCgxNotFound
  | dbgPid (pid : Nat)
  | errNoIso
  | errNoColors
deriving DecidableEq, Repr

/-- The environment `run_cgx` runs against: which files exist on disk, the
pid the launch would produce, what the window search would find, the name
of the new stdout reader and the caller recorded as the mode tag. -/
structure CgxEnv where
  cgx_exists : Bool
  iso_exists : Bool
  colors_exists : Bool
  align_windows : Bool
  newPid : Nat
  foundWid : Option Nat
  readerId : Nat
  caller : List Nat
deriving DecidableEq, Repr

/-- `Window.run_cgx`, returning the new session state, its own log records
and the number of `gui.cgx.kill` invocations.  The executable-existence
check comes first: when it fails the function logs one error and returns
with everything untouched, in particular without killing a previously
running CGX.  Otherwise the previous process is killed, the new one
launched, its window searched for (could be `None`), a stdout reader
appended and started, windows optionally aligned, the two config files
posted (each missing one logged as an error), and the mode tag set from the
caller's name. -/
def run_cgx (env : CgxEnv) (st : CgxSession) :
    CgxSession × List RunLog × Nat :=
  if !env.cgx_exists then (st, [RunLog.errCgxNotFound], 0)
  else
    ({ cgx_process := some env.newPid
       wid2 := env.foundWid
       mode := some env.caller
       stdout_readers := st.stdout_readers ++ [env.readerId] },
     [RunLog.dbgPid env.newPid] ++
       (if env.iso_exists then [] else [RunLog.errNoIso]) ++
       (if env.colors_exists then [] else [RunLog.errNoColors]),
     1)

/-! ## Characterizations used in statements -/

/-- The events a single symbol contributes in the Linux send loop:
a press/release pair when mapped, nothing when unsupported. -/
def linuxSymEvents (kc : List Nat → Nat) (win : Nat) (c : Nat) :
    List XKeyEvent :=
  match linuxMapping [c] with
  | some (name, sh) =>
      [XKeyEvent.press win (kc name) sh, XKeyEvent.release win (kc name) sh]
  | none => []

/-- The events a single symbol contributes in the Windows send loop. -/
def winSymEvents (c : Nat) : List WinEvent :=
  match windowsMapping [c] with
  | some (code, sh) =>
      (if sh = 1 then [WinEvent.keybd 16 0] else []) ++
        [WinEvent.keybd code 0, WinEvent.keybd code 2] ++
        (if sh = 1 then [WinEvent.keybd 16 2] else [])
  | none => []

/-- The 32 ASCII punctuation code points. -/
def asciiPunct : List Nat :=
  [33, 34, 35, 36, 37, 38, 39, 40, 41, 42, 43, 44, 45, 46, 47,
   58, 59, 60, 61, 62, 63, 64, 91, 92, 93, 94, 95, 96, 123, 124, 125, 126]

/-! ## Theorems -/

/-- C1: for every command, if the child process handle is `None`, or the
process has exited (`poll()` non-`None`), or the viewer window id `wid2` is
`None`, then `post(cmd)` is a complete no-op on both OS variants: the
wrapper invokes the delivery method zero times, so no key events are
delivered and no warnings or other log entries are emitted. -/
theorem post_noop_when_precondition_unmet
    (kc : List Nat → Nat) (st : PostState) (cmd : List Nat)
    (h : st.cgx_process = none ∨ st.poll ≠ none ∨ st.wid2 = none) :
    post_wrapper_calls st cmd = [] ∧
    linux_post kc st cmd = ([], []) ∧
    windows_post st cmd = ([], []) := by
  have hp : post_precond st = false := by
    rcases h with h | h | h
    · simp [post_precond, h]
    · rcases Option.ne_none_iff_exists'.mp h with ⟨v, hv⟩
      simp [post_precond, hv]
    · simp [post_precond, h]
  refine ⟨?_, ?_, ?_⟩ <;>
    simp [post_wrapper_calls, linux_post, windows_post, combineRuns, hp]

theorem post_noop_when_precondition_unmet_witness :
    post_wrapper_calls (PostState.mk none none none none) (cs "plot e all")
        = [] ∧
    linux_post (fun _ => 0) (PostState.mk none none none none)
        (cs "plot e all") = ([], []) ∧
    windows_post (PostState.mk none none none none) (cs "plot e all")
        = ([], []) :=
  post_noop_when_precondition_unmet (fun _ => 0)
    (PostState.mk none none none none) (cs "plot e all") (Or.inl rfl)

/-- C2: when the preconditions hold, `post_wrapper` invokes the underlying
OS delivery method exactly three times, in order: the single newline (code
10, the clear-held-modifiers no-op), then the command followed by a
trailing newline, then a single space (code 32) as the flush suffix. -/
theorem post_wrapper_three_calls (st : PostState) (cmd : List Nat)
    (h1 : st.cgx_process.isSome = true) (h2 : st.poll = none)
    (h3 : st.wid2.isSome = true) :
    post_wrapper_calls st cmd = [[10], cmd ++ [10], [32]] := by
  simp [post_wrapper_calls, post_precond, h1, h2, h3]

theorem post_wrapper_three_calls_witness :
    post_wrapper_calls (PostState.mk (some 77) none (some 1) (some 2))
        (cs "plot e all")
      = [[10], cs "plot e all" ++ [10], [32]] :=
  post_wrapper_three_calls (PostState.mk (some 77) none (some 1) (some 2))
    (cs "plot e all") rfl rfl rfl

/-- C10: if the configured CGX executable path does not exist on disk,
`run_cgx` logs one error and returns at once: the session state
(`cgx_process`, `wid2`, `mode`, `stdout_readers`) is unchanged and
`gui.cgx.kill` is never invoked, because the kill of the previous process
comes only after the existence check succeeds. -/
theorem run_cgx_missing_exe_noop (env : CgxEnv) (st : CgxSession)
    (h : env.cgx_exists = false) :
    run_cgx env st = (st, [RunLog.errCgxNotFound], 0) := by
  simp [run_cgx, h]

theorem run_cgx_missing_exe_noop_witness :
    run_cgx (CgxEnv.mk false true true true 77 (some 2) 5 (cs "cgx_inp"))
        (CgxSession.mk (some 33) (some 9) (some (cs "cgx_frd")) [4])
      = (CgxSession.mk (some 33) (some 9) (some (cs "cgx_frd")) [4],
         [RunLog.errCgxNotFound], 0) :=
  run_cgx_missing_exe_noop
    (CgxEnv.mk false true true true 77 (some 2) 5 (cs "cgx_inp"))
    (CgxSession.mk (some 33) (some 9) (some (cs "cgx_frd")) [4]) rfl

/-- C3 counterexample: against a registry holding two visible windows both
titled exactly "viewer", in this enumeration order, the Windows locator
returns the identifier of the second (last) matching window, not the first,
while the Linux locator returns the first.  So a single enumeration pass
does not return the first match on either OS variant, refuting the claim as
stated. -/
theorem windows_get_wid_not_first :
    windows_get_wid (cs "viewer") [(1, cs "viewer"), (2, cs "viewer")]
        = some 2 ∧
    ¬ windows_get_wid (cs "viewer") [(1, cs "viewer"), (2, cs "viewer")]
        = some 1 ∧
    linux_get_wid (cs "viewer") [(1, cs "viewer"), (2, cs "viewer")]
        = some 1 := by
  refine ⟨by decide, by decide, by decide⟩

/-- Folding the Windows `EnumWindows` callback accumulates the last match:
the fold over the registry equals the first match of the reversed registry,
with the initial accumulator as fallback. -/
theorem windows_fold_last (t : List Nat) :
    ∀ (reg : List (Nat × List Nat)) (a : Option Nat),
      reg.foldl (windows_enum_step t) a =
        match reg.reverse.find? (fun p => wmatch t p.2) with
        | some p => some p.1
        | none => a := by
  intro reg
  induction reg with
  | nil => intro a; rfl
  | cons x xs ih =>
    intro a
    rw [List.foldl_cons, ih]
    rw [List.reverse_cons, List.find?_append]
    cases hx : xs.reverse.find? (fun p => wmatch t p.2) with
    | some p => simp [hx]
    | none =>
      by_cases hm : wmatch t x.2
      · simp [hx, List.find?, hm, windows_enum_step]
      · simp [hx, List.find?, hm, windows_enum_step]

/-- C3 amended: in a single enumeration pass, the Linux locator returns the
identifier of the first window whose title matches (it breaks out of the
walk at the first match), while the Windows locator returns the identifier
of the last matching window (its callback overwrites the result at every
match and continues the enumeration). -/
theorem get_wid_first_on_linux_last_on_windows
    (t : List Nat) (reg : List (Nat × List Nat)) :
    linux_get_wid t reg =
      (reg.find? (fun p => wmatch t p.2)).map Prod.fst ∧
    windows_get_wid t reg =
      (reg.reverse.find? (fun p => wmatch t p.2)).map Prod.fst := by
  constructor
  · induction reg with
    | nil => rfl
    | cons x xs ih =>
      by_cases hm : wmatch t x.2
      · simp [linux_get_wid, List.find?, hm]
      · simp [linux_get_wid, List.find?, hm, ih]
  · rw [windows_get_wid, windows_fold_last]
    cases hx : reg.reverse.find? (fun p => wmatch t p.2) <;> simp [hx]

/-- C4: window-title matching is case-insensitive (lowercasing either the
candidate title or the pattern first does not change the verdict), and for
pattern "viewer" it accepts the exact title and " - "-delimited
decorations on either side, while titles not containing the pattern in
that shape are rejected. -/
theorem title_match_case_insensitive_decorated :
    (∀ t w : List Nat, wmatch t (lowerStr w) = wmatch t w) ∧
    (∀ t w : List Nat, wmatch (lowerStr t) w = wmatch t w) ∧
    wmatch (cs "viewer") (cs "viewer") = true ∧
    wmatch (cs "viewer") (cs "model - viewer") = true ∧
    wmatch (cs "viewer") (cs "viewer - unsaved") = true ∧
    wmatch (cs "Viewer") (cs "MODEL - viewer") = true ∧
    wmatch (cs "viewer") (cs "vieweredit") = false ∧
    wmatch (cs "viewer") (cs "my viewer") = false := by
  refine ⟨?_, ?_, by decide, by decide, by decide, by decide, by decide,
    by decide⟩
  · intro t w
    unfold wmatch
    rw [lowerStr_idem]
  · intro t w
    unfold wmatch
    rw [lowerStr_idem]

/-- C5: for every (tick-indexed) registry behaviour, the `wid_wrapper`
polling loop terminates with one of exactly two outcomes: a found window
identifier with a single debug record, or `None` at the timeout with one
error, exactly one window-list dump, and one follow-up error — it never
produces any other log sequence and never fails to return. -/
theorem wid_find_terminates (method : Nat → Option Nat) :
    (∃ w, wid_find method = (some w, [WidLog.dbgWid w])) ∨
    wid_find method =
      (none, [WidLog.errCantGet, WidLog.dumpWindowList, WidLog.errNoComm])
    := by
  have aux : ∀ (b i : Nat),
      (∃ w, widLoop method i b = (some w, [WidLog.dbgWid w])) ∨
      widLoop method i b =
        (none,
         [WidLog.errCantGet, WidLog.dumpWindowList, WidLog.errNoComm]) := by
    intro b
    induction b with
    | zero => intro i; right; rfl
    | succ b ih =>
      intro i
      cases hm : method i with
      | some w => left; exact ⟨w, by simp [widLoop, hm]⟩
      | none => simpa [widLoop, hm] using ih (i + 1)
  exact aux 50 1

/-- C8: both `align` variants skip unknown (`None`) identifiers without
producing any operation, place the CAE window and the keyword dialog at the
left third of the screen (x = 0, width = floor(W/3), full height) and the
CGX viewer and browser windows at the right two thirds (x = ceil(W/3),
width = floor(2W/3), full height); with only the CAE window id known,
exactly one window is moved. -/
theorem align_layout (a W H : Nat) (w1 w3 w2 w4 : Option Nat) :
    windows_align w1 w3 w2 w4 W H = linux_align w1 w3 w2 w4 W H ∧
    linux_align (some a) none none none W H =
      [MoveOp.mk a 0 0 (W / 3) H] ∧
    (linux_align w1 w3 w2 w4 W H).length =
      ([w1, w3, w2, w4].filterMap id).length ∧
    (∀ op ∈ linux_align w1 w3 w2 w4 W H,
      ((some op.wid = w1 ∨ some op.wid = w3) ∧
        op.x = 0 ∧ op.y = 0 ∧ op.w = W / 3 ∧ op.h = H) ∨
      ((some op.wid = w2 ∨ some op.wid = w4) ∧
        op.x = (W + 2) / 3 ∧ op.y = 0 ∧ op.w = 2 * W / 3 ∧ op.h = H)) := by
  refine ⟨rfl, rfl, ?_, ?_⟩
  · cases w1 <;> cases w3 <;> cases w2 <;> cases w4 <;>
      simp [linux_align]
  · intro op hop
    rw [linux_align, List.mem_append] at hop
    rcases hop with hop | hop
    · left
      simp only [List.mem_map, List.mem_filterMap, List.mem_cons,
        List.mem_singleton, id] at hop
      obtain ⟨i, hi, rfl⟩ := hop
      rcases hi with ⟨x, hx | hx, hxi⟩
      · subst hxi
        exact ⟨Or.inl (by rw [hx]), rfl, rfl, rfl, rfl⟩
      · subst hxi
        rcases hx with hx | hx
        · exact ⟨Or.inr (by rw [hx]), rfl, rfl, rfl, rfl⟩
        · exact absurd hx (List.not_mem_nil _)
    · right
      simp only [List.mem_map, List.mem_filterMap, List.mem_cons,
        List.mem_singleton, id] at hop
      obtain ⟨i, hi, rfl⟩ := hop
      rcases hi with ⟨x, hx | hx, hxi⟩
      · subst hxi
        exact ⟨Or.inl (by rw [hx]), rfl, rfl, rfl, rfl⟩
      · subst hxi
        rcases hx with hx | hx
        · exact ⟨Or.inr (by rw [hx]), rfl, rfl, rfl, rfl⟩
        · exact absurd hx (List.not_mem_nil _)

/-- C6: for every command, the per-symbol send loop inside `post` (on both
OS variants) delivers the mapped event pairs of every supported symbol in
command order, skips unsupported symbols, and warns exactly once per
unsupported symbol occurrence, in order: the warning list is exactly the
sublist of unsupported symbols of the command. -/
theorem send_loop_skips_unsupported
    (kc : List Nat → Nat) (win : Nat) (cmd : List Nat) :
    (linuxSendLoop kc win cmd).1 = cmd.flatMap (linuxSymEvents kc win) ∧
    (linuxSendLoop kc win cmd).2 =
      cmd.filter (fun c => (linuxMapping [c]).isNone) ∧
    (winSendLoop cmd).1 = cmd.flatMap winSymEvents ∧
    (winSendLoop cmd).2 =
      cmd.filter (fun c => (windowsMapping [c]).isNone) := by
  refine ⟨?_, ?_, ?_, ?_⟩
  · induction cmd with
    | nil => rfl
    | cons c rest ih =>
      cases hm : linuxMapping [c] with
      | some p =>
        obtain ⟨name, sh⟩ := p
        simp [linuxSendLoop, linuxSymEvents, hm, ih]
      | none => simp [linuxSendLoop, linuxSymEvents, hm, ih]
  · induction cmd with
    | nil => rfl
    | cons c rest ih =>
      cases hm : linuxMapping [c] with
      | some p =>
        obtain ⟨name, sh⟩ := p
        simp [linuxSendLoop, List.filter, hm, ih]
      | none => simp [linuxSendLoop, List.filter, hm, ih]
  · induction cmd with
    | nil => rfl
    | cons c rest ih =>
      cases hm : windowsMapping [c] with
      | some p =>
        obtain ⟨code, sh⟩ := p
        simp [winSendLoop, winSymEvents, hm, ih]
      | none => simp [winSendLoop, winSymEvents, hm, ih]
  · induction cmd with
    | nil => rfl
    | cons c rest ih =>
      cases hm : windowsMapping [c] with
      | some p =>
        obtain ⟨code, sh⟩ := p
        simp [winSendLoop, List.filter, hm, ih]
      | none => simp [winSendLoop, List.filter, hm, ih]

/-- C7 counterexample: the Windows keyboard table has no entry for
backspace (code point 8), while the Linux table does map it; so the claim
that each OS variant's table covers backspace fails on the Windows
variant. -/
theorem windows_mapping_missing_backspace :
    windowsMapping [8] = none ∧ (linuxMapping [8]).isSome = true := by
  refine ⟨by decide, by decide⟩

/-- C7 amended: on both variants the keyboard table maps every ASCII letter
in both cases, every digit and all 32 ASCII punctuation characters, plus
tab and newline; the shift flag is 1 for uppercase letters and 0 for
lowercase letters, digits, tab and newline.  Backspace is mapped by the
Linux table (with shift flag 0) but absent from the Windows table. -/
theorem keyboard_table_coverage :
    (∀ c ∈ cs "abcdefghijklmnopqrstuvwxyz",
      (linuxMapping [c]).map Prod.snd = some 0 ∧
      (windowsMapping [c]).map Prod.snd = some 0) ∧
    (∀ c ∈ cs "ABCDEFGHIJKLMNOPQRSTUVWXYZ",
      (linuxMapping [c]).map Prod.snd = some 1 ∧
      (windowsMapping [c]).map Prod.snd = some 1) ∧
    (∀ c ∈ cs "0123456789",
      (linuxMapping [c]).map Prod.snd = some 0 ∧
      (windowsMapping [c]).map Prod.snd = some 0) ∧
    (∀ c ∈ asciiPunct,
      (linuxMapping [c]).isSome = true ∧
      (windowsMapping [c]).isSome = true) ∧
    (linuxMapping (cs "\t")).map Prod.snd = some 0 ∧
    (linuxMapping (cs "\n")).map Prod.snd = some 0 ∧
    (linuxMapping [8]).map Prod.snd = some 0 ∧
    (windowsMapping (cs "\t")).map Prod.snd = some 0 ∧
    (windowsMapping (cs "\n")).map Prod.snd = some 0 ∧
    windowsMapping [8] = none := by
  decide

/-- The first `send_hotkey` loop scans for the first unmapped key. -/
theorem hotkeyCheck_eq_find (keys : List (List Nat)) :
    hotkeyCheck keys = keys.find? (fun k => (linuxMapping k).isNone) := by
  induction keys with
  | nil => rfl
  | cons k rest ih =>
    by_cases h : (linuxMapping k).isNone
    · simp [hotkeyCheck, List.find?, h]
    · simp [hotkeyCheck, List.find?, h, ih]

/-- C9: `send_hotkey` is all-or-nothing: if every key of the sequence is
mapped, every key is pressed in the given order and then released in
reverse order with no warning; if some key is unmapped, exactly one warning
is emitted, naming the first such key, and no key event at all is
injected. -/
theorem send_hotkey_all_or_nothing
    (kc : List Nat → Nat) (keys : List (List Nat)) :
    ((∀ k ∈ keys, (linuxMapping k).isSome = true) →
      send_hotkey kc keys =
        (keys.map (fun k => HotkeyEvent.press (hotkeyCode kc k)) ++
          keys.reverse.map (fun k => HotkeyEvent.release (hotkeyCode kc k)),
         [])) ∧
    (∀ k0, keys.find? (fun k => (linuxMapping k).isNone) = some k0 →
      send_hotkey kc keys = ([], [k0])) := by
  constructor
  · intro hall
    have h : hotkeyCheck keys = none := by
      rw [hotkeyCheck_eq_find]
      apply List.find?_eq_none.mpr
      intro k hk
      have hs := hall k hk
      cases hmk : linuxMapping k with
      | none => rw [hmk] at hs; simp at hs
      | some v => simp [hmk]
    simp [send_hotkey, h]
  · intro k0 h
    have h2 : hotkeyCheck keys = some k0 := by rw [hotkeyCheck_eq_find, h]
    simp [send_hotkey, h2]

theorem send_hotkey_all_or_nothing_witness :
    send_hotkey (fun _ => 7) [cs "Super_L", cs "Down"] =
      ([cs "Super_L", cs "Down"].map
          (fun k => HotkeyEvent.press (hotkeyCode (fun _ => 7) k)) ++
        [cs "Super_L", cs "Down"].reverse.map
          (fun k => HotkeyEvent.release (hotkeyCode (fun _ => 7) k)),
       []) ∧
    send_hotkey (fun _ => 7) [cs "Super_L", cs "Oops"] = ([], [cs "Oops"]) := by
  constructor
  · exact (send_hotkey_all_or_nothing (fun _ => 7)
      [cs "Super_L", cs "Down"]).1 (by decide)
  · exact (send_hotkey_all_or_nothing (fun _ => 7)
      [cs "Super_L", cs "Oops"]).2 (cs "Oops") (by decide)

end Cae
